import Mathlib

/-!
Verification development for the Delivery-Food-Summarizer repository.

The health-scoring engine (`backend/app/services/health_intelligence.py`),
the nutrition resolver (`backend/app/services/calorie_lookup.py`) and the
order-date extraction of the email parser
(`backend/app/services/email_parser.py`) are shallowly embedded below.
Python machine floats are modelled by exact rationals, Python strings by
`String` and `List Char`, the SQL calorie cache by an insertion-ordered
list of rows, and the external network collaborators (nutrition API, web
search, text-completion oracle) by explicit oracle parameters holding the
data those collaborators would return.
-/

namespace DFS

/-- ASCII lower-casing; models Python `str.lower` on the ASCII data used here. -/
def pyLower (s : List Char) : List Char := s.map Char.toLower

/-- Python whitespace class `\s` (ASCII part), also used by `str.strip`. -/
def isSpacePy (c : Char) : Bool :=
  c == ' ' || c == '\t' || c == '\n' || c == '\r' || c == '\x0b' || c == '\x0c'

/-- Models Python `str.strip`: drop whitespace from both ends. -/
def pyStrip (s : List Char) : List Char :=
  ((s.dropWhile isSpacePy).reverse.dropWhile isSpacePy).reverse

/-- Substring test: `needle` occurs contiguously inside `hay`; models the
Python `in` operator on strings. -/
def containsSub (hay needle : List Char) : Bool :=
  (List.range (hay.length + 1)).any fun i => needle.isPrefixOf (hay.drop i)

/-- Lower-cased and stripped rendering of a name, as computed at the top of
`_classify_dish`. -/
def nameKey (s : String) : List Char := pyStrip (pyLower s.data)

/-- Nutri-Score category, best (`A`) to worst (`E`). -/
inductive Cat where
  | A | B | C | D | E
  deriving DecidableEq, Repr

/-- The `healthy_preps` list of `_classify_dish`. -/
def healthy_preps : List String :=
  ["grilled", "steamed", "boiled", "baked", "tandoori", "salad", "soup"]

/-- `_CAT_A_KEYWORDS` from `health_intelligence.py`. -/
def CAT_A_KEYWORDS : List String :=
  ["grilled", "steamed", "tandoori", "tikka", "salad", "bowl",
   "dal", "daal", "dhal", "lentil", "rasam", "sambar", "sambhar",
   "idli", "appam", "ragi", "millet", "oats", "quinoa",
   "grilled chicken", "grilled fish", "grilled paneer",
   "boiled egg", "egg white", "poha", "upma",
   "sprout", "raita", "curd", "yogurt", "buttermilk", "chaas",
   "soup", "clear soup", "multigrain",
   "chapati", "roti", "phulka", "whole wheat",
   "brown rice", "steamed rice"]

/-- `_CAT_B_KEYWORDS` from `health_intelligence.py`. -/
def CAT_B_KEYWORDS : List String :=
  ["biryani", "pulao", "rice bowl", "curry", "sabzi", "subzi",
   "thali", "meals", "combo meal",
   "stir fry", "stir-fry", "sauteed", "tawa",
   "egg", "omelette", "omelet", "bhurji",
   "thin crust", "pita", "wrap", "roll",
   "paneer", "tofu", "chicken", "fish", "prawn", "shrimp",
   "kebab", "seekh", "malai",
   "rajma", "chole", "chana", "chickpea",
   "mushroom", "palak", "spinach", "methi",
   "dosa", "uttapam", "pesarattu"]

/-- `_CAT_C_KEYWORDS` from `health_intelligence.py`. -/
def CAT_C_KEYWORDS : List String :=
  ["butter chicken", "butter paneer", "butter masala",
   "cream", "creamy", "korma", "shahi",
   "naan", "garlic naan", "kulcha", "paratha", "parantha",
   "fried rice", "hakka noodle", "chow mein", "lo mein",
   "thick crust", "regular pizza",
   "burger", "sandwich", "sub",
   "pasta", "penne", "spaghetti", "alfredo",
   "manchurian", "gobi manchurian", "schezwan",
   "momos", "dumpling", "spring roll",
   "white rice", "jeera rice",
   "kadhai", "kadai", "karahi",
   "tikka masala", "masala dosa"]

/-- `_CAT_D_KEYWORDS` from `health_intelligence.py`. -/
def CAT_D_KEYWORDS : List String :=
  ["fried", "deep fried", "deep-fried",
   "pakora", "pakoda", "bhajia", "bhaji",
   "samosa", "kachori", "vada", "bonda",
   "crispy", "crunchy", "golden fried",
   "french fries", "fries", "loaded fries", "peri peri fries",
   "fried chicken", "chicken wings", "wings",
   "nuggets", "popcorn chicken", "strips",
   "nachos", "loaded nachos",
   "puri", "poori", "bhatura", "chole bhature",
   "chilli chicken", "chilli paneer", "dragon chicken",
   "hot dog", "sausage"]

/-- `_CAT_E_KEYWORDS` from `health_intelligence.py`. -/
def CAT_E_KEYWORDS : List String :=
  ["dessert", "ice cream", "gelato", "sundae",
   "cake", "pastry", "brownie", "cookie",
   "waffle", "pancake", "crepe",
   "gulab jamun", "rasgulla", "rasmalai", "jalebi",
   "kheer", "halwa", "barfi", "ladoo", "laddu",
   "mithai", "sweet", "payasam",
   "chocolate", "mousse", "tiramisu", "cheesecake",
   "milkshake", "shake", "frappe", "smoothie",
   "cold coffee", "iced coffee", "frappuccino",
   "soda", "cola", "pepsi", "coke", "fizz",
   "mojito", "cooler", "slush",
   "donut", "doughnut", "churro"]

/-- `_CATEGORY_RAW_SCORES`: fixed raw severity score per category. -/
def CATEGORY_RAW_SCORES : Cat → Int
  | .A => -7
  | .B => 3
  | .C => 12
  | .D => 25
  | .E => 37

/-- `_CATEGORY_ORDER`: position of a category, `A` best, `E` worst. -/
def CATEGORY_ORDER : Cat → Nat
  | .A => 0
  | .B => 1
  | .C => 2
  | .D => 3
  | .E => 4

/-- `_RESTAURANT_CATEGORY_FLOORS`: chain identifier and the worst-allowed
category floor, in the source's dictionary insertion order. -/
def RESTAURANT_CATEGORY_FLOORS : List (String × Cat) :=
  [("pizza hut", .C),
   ("dominos", .C),
   ("domino\x27s", .C),
   ("papa johns", .C),
   ("papa john\x27s", .C),
   ("pizza express", .C),
   ("la pino", .C),
   ("la pinoz", .C),
   ("oven story", .C),
   ("mojo pizza", .C),
   ("mcdonalds", .C),
   ("mcdonald\x27s", .C),
   ("burger king", .C),
   ("kfc", .D),
   ("popeyes", .D),
   ("wendy\x27s", .C),
   ("subway", .C),
   ("taco bell", .C),
   ("faasos", .C),
   ("behrouz biryani", .C),
   ("box8", .C),
   ("rebel foods", .C),
   ("wok express", .C),
   ("baskin robbins", .E),
   ("keventers", .E),
   ("natural ice cream", .E),
   ("cream stone", .E),
   ("rolls mania", .D)]

/-- Does any keyword of `kws` occur in the lowered name `key`? -/
def anyKeyword (key : List Char) (kws : List String) : Bool :=
  kws.any fun kw => containsSub key kw.data

/-- Keyword phase of `_classify_dish` (lines up to the floor override). -/
def keywordCategory (name_lower : List Char) : Cat :=
  if anyKeyword name_lower healthy_preps then .A
  else if anyKeyword name_lower CAT_E_KEYWORDS then .E
  else if anyKeyword name_lower CAT_D_KEYWORDS then .D
  else if anyKeyword name_lower CAT_A_KEYWORDS then .A
  else if anyKeyword name_lower CAT_B_KEYWORDS then .B
  else if anyKeyword name_lower CAT_C_KEYWORDS then .C
  else .C

/-- Restaurant-floor override of `_classify_dish`: the first chain identifier
occurring in the lowered restaurant name clamps the category to its floor
(the loop breaks at the first match). -/
def applyFloor (category : Cat) (restaurant_lower : List Char) : Cat :=
  match RESTAURANT_CATEGORY_FLOORS.find? (fun p => containsSub restaurant_lower p.1.data) with
  | some pf => if CATEGORY_ORDER category < CATEGORY_ORDER pf.2 then pf.2 else category
  | none => category

/-- `_classify_dish(dish_name, restaurant_name)` from `health_intelligence.py`. -/
def classify_dish (dish_name restaurant_name : String) : Cat :=
  let name_lower := nameKey dish_name
  let restaurant_lower := nameKey restaurant_name
  let category := keywordCategory name_lower
  if restaurant_lower.isEmpty then category
  else applyFloor category restaurant_lower

/-- A dish-frequency entry as consumed by `compute_health_index`:
`dish.get("name")`, `dish.get("count")`, `dish.get("restaurant")`. -/
structure DishFreq where
  name : String
  count : Nat
  restaurant : String
  deriving DecidableEq, Repr

/-- Per-category weighted counts accumulated by `compute_health_index`. -/
structure CatCounts where
  a : Nat
  b : Nat
  c : Nat
  d : Nat
  e : Nat
  deriving DecidableEq, Repr

def CatCounts.zero : CatCounts := ⟨0, 0, 0, 0, 0⟩

def CatCounts.incr (cc : CatCounts) (cat : Cat) (k : Nat) : CatCounts :=
  match cat with
  | .A => { cc with a := cc.a + k }
  | .B => { cc with b := cc.b + k }
  | .C => { cc with c := cc.c + k }
  | .D => { cc with d := cc.d + k }
  | .E => { cc with e := cc.e + k }

/-- The `category_counts` dictionary rendered in its insertion order. -/
def CatCounts.toList (cc : CatCounts) : List (Cat × Nat) :=
  [(.A, cc.a), (.B, cc.b), (.C, cc.c), (.D, cc.d), (.E, cc.e)]

/-- Python `round` on a rational: round half to even (banker's rounding). -/
def pyRound (q : ℚ) : Int :=
  let f := ⌊q⌋
  let r := q - f
  if r < 1/2 then f
  else if 1/2 < r then f + 1
  else if f % 2 = 0 then f else f + 1

/-- Loop body of `compute_health_index`: accumulates the weighted raw score,
the total dish count and the per-category counts. -/
def computeStep (acc : ℚ × Nat × CatCounts) (dish : DishFreq) : ℚ × Nat × CatCounts :=
  let category := classify_dish dish.name dish.restaurant
  let raw := CATEGORY_RAW_SCORES category
  (acc.1 + (raw : ℚ) * dish.count, acc.2.1 + dish.count, acc.2.2.incr category dish.count)

/-- `compute_health_index(dishes_with_frequency, late_night_order_pct,
avg_daily_calories)` from `health_intelligence.py`. -/
def compute_health_index (dishes_with_frequency : List DishFreq)
    (late_night_order_pct avg_daily_calories : ℚ) : Int × List (Cat × Nat) :=
  if dishes_with_frequency.isEmpty then (50, [])
  else
    let acc := dishes_with_frequency.foldl computeStep (0, 0, CatCounts.zero)
    let total_weighted_score := acc.1
    let total_count := acc.2.1
    let category_counts := acc.2.2
    if total_count = 0 then (50, category_counts.toList)
    else
      let avg_raw_score : ℚ := total_weighted_score / (total_count : ℚ)
      let hi0 : ℚ := 100 - ((avg_raw_score + 15) * 100 / 55)
      let hi1 : ℚ := if late_night_order_pct > 20 then hi0 - 5 else hi0
      let hi2 : ℚ := if avg_daily_calories > 2500 then hi1 - 5 else hi1
      (max 0 (min 100 (pyRound hi2)), category_counts.toList)

/-- Dish-count-weighted raw-score total of a history. -/
def totalW (l : List DishFreq) : ℚ :=
  (l.map fun d => ((CATEGORY_RAW_SCORES (classify_dish d.name d.restaurant) : ℚ) * d.count)).sum

/-- Total dish count of a history. -/
def totalC (l : List DishFreq) : Nat :=
  (l.map (·.count)).sum

/-- One order of a day, as consumed by `calculate_daily_health_scores`:
`order.get("calories", 0)`, `order.get("hour", 12)`, `order.get("dishes", [])`,
`order.get("restaurant", "")`. -/
structure DayOrder where
  calories : ℚ
  hour : Int
  dishes : List String
  restaurant : String
  deriving DecidableEq, Repr

/-- Inner dish loop of the category adjustment in
`calculate_daily_health_scores`: the scan of one order's dishes stops (the
`break`) at the first dish classifying as `D` (penalty `-5`) or `E`
(penalty `-8`). -/
def dishStep (adjustment : Int) (o : DayOrder) : Int :=
  match o.dishes.findSome? (fun dish_name =>
    let cat := classify_dish dish_name o.restaurant
    if cat = Cat.D then some (-5 : Int)
    else if cat = Cat.E then some (-8 : Int)
    else none) with
  | some p => adjustment + p
  | none => adjustment

/-- Dish-category loop of `calculate_daily_health_scores`: the per-order
penalties accumulate over the day's orders (the outer loop has no `break`). -/
def dishCategoryAdjustment (orders : List DayOrder) : Int :=
  orders.foldl dishStep 0

/-- `calculate_daily_health_scores(daily_orders, base_health_index)` from
`health_intelligence.py`; the Python dict is modelled as an insertion-ordered
association list. -/
def calculate_daily_health_scores (daily_orders : List (String × List DayOrder))
    (base_health_index : Int) : List (String × Int) :=
  if daily_orders.isEmpty then []
  else
    let total_calories : ℚ :=
      (daily_orders.map fun p => ((p.2.map (·.calories)).sum)).sum
    let avg_calories : ℚ := total_calories / (daily_orders.length : ℚ)
    daily_orders.map fun p =>
      let orders := p.2
      let day_calories : ℚ := (orders.map (·.calories)).sum
      let calAdj : Int :=
        if avg_calories > 0 then
          let calorie_ratio := day_calories / avg_calories
          if calorie_ratio > 3/2 then -15
          else if calorie_ratio > 6/5 then -8
          else if calorie_ratio < 4/5 then 5
          else 0
        else 0
      let lateAdj : Int :=
        if orders.any (fun o => o.hour ≥ 22 || o.hour < 5) then -10 else 0
      let adjustment := calAdj + lateAdj + dishCategoryAdjustment orders
      (p.1, max 0 (min 100 (base_health_index + adjustment)))

/-- First `D`-or-`E` penalty of one order, as the amended reading of the
per-day category adjustment describes it. -/
def orderPenalty (o : DayOrder) : Int :=
  (o.dishes.findSome? (fun dish_name =>
    let cat := classify_dish dish_name o.restaurant
    if cat = Cat.D then some (-5 : Int)
    else if cat = Cat.E then some (-8 : Int)
    else none)).getD 0

/-- Modelled from the spec: the daily dish-category adjustment as claim C4
describes it, a single flat `-8` if any dish of the day classifies `E`, else a
single flat `-5` if any classifies `D`. -/
def claimedDishAdjustment (orders : List DayOrder) : Int :=
  if orders.any (fun o => o.dishes.any fun dn => classify_dish dn o.restaurant = Cat.E) then -8
  else if orders.any (fun o => o.dishes.any fun dn => classify_dish dn o.restaurant = Cat.D) then -5
  else 0

/-- Modelled from the spec: `calculate_daily_health_scores` as claim C4
describes it, with at most one category penalty per day. -/
def claimed_daily_scores (daily_orders : List (String × List DayOrder))
    (base_health_index : Int) : List (String × Int) :=
  if daily_orders.isEmpty then []
  else
    let total_calories : ℚ :=
      (daily_orders.map fun p => ((p.2.map (·.calories)).sum)).sum
    let avg_calories : ℚ := total_calories / (daily_orders.length : ℚ)
    daily_orders.map fun p =>
      let orders := p.2
      let day_calories : ℚ := (orders.map (·.calories)).sum
      let calAdj : Int :=
        if avg_calories > 0 then
          let calorie_ratio := day_calories / avg_calories
          if calorie_ratio > 3/2 then -15
          else if calorie_ratio > 6/5 then -8
          else if calorie_ratio < 4/5 then 5
          else 0
        else 0
      let lateAdj : Int :=
        if orders.any (fun o => o.hour ≥ 22 || o.hour < 5) then -10 else 0
      let adjustment := calAdj + lateAdj + claimedDishAdjustment orders
      (p.1, max 0 (min 100 (base_health_index + adjustment)))

/-! ### Nutrition resolver (`calorie_lookup.py`) -/

/-- The dictionary returned by `CalorieLookupService.get_calories`. -/
structure NutritionFact where
  calories : Option ℚ
  is_estimated : Bool
  source_url : Option String
  deriving DecidableEq, Repr

/-- One row of the `CalorieCache` table, in insertion order. -/
structure CacheRow where
  dish_name : String
  restaurant_name : Option String
  calories : ℚ
  source_url : Option String
  is_estimated : Bool
  deriving DecidableEq, Repr

/-- SQL `ilike "%pat%"` on a text column: case-insensitive substring match. -/
def ilikeSub (column pat : String) : Bool :=
  containsSub (pyLower column.data) (pyLower pat.data)

/-- Restaurant-column match; a `NULL` column never matches an `ilike` filter. -/
def rowRestMatch (row : CacheRow) (pat : String) : Bool :=
  match row.restaurant_name with
  | some rn => ilikeSub rn pat
  | none => false

/-- Python truthiness of the optional restaurant argument. -/
def restTruthy : Option String → Bool
  | some s => !s.isEmpty
  | none => false

/-- The fact dictionary built from a cache row by `_check_cache`. -/
def rowFact (row : CacheRow) : NutritionFact :=
  ⟨some row.calories, row.is_estimated, row.source_url⟩

/-- `_check_cache(dish_name, restaurant_name)`: filter rows whose stored dish
name contains the query, prefer the first row also matching the restaurant,
else the first dish match; `first()` is the first row in insertion order. -/
def check_cache (db : List CacheRow) (dish_name : String)
    (restaurant_name : Option String) : Option NutritionFact :=
  let q := db.filter fun row => ilikeSub row.dish_name dish_name
  let withRest :=
    if restTruthy restaurant_name then
      q.find? fun row => rowRestMatch row (restaurant_name.getD "")
    else none
  match withRest with
  | some row => some (rowFact row)
  | none =>
    match q.head? with
    | some row => some (rowFact row)
    | none => none

/-- `_save_to_cache`: append-only insert of a new cache row. -/
def save_to_cache (db : List CacheRow) (dish_name : String)
    (restaurant_name : Option String) (calories : ℚ) (source_url : Option String)
    (is_estimated : Bool) : List CacheRow :=
  db ++ [⟨dish_name, restaurant_name, calories, source_url, is_estimated⟩]

/-- `_lookup_api_ninjas`, parameterized by the data the external nutrition API
would return (`none` when the key is missing or the request errors; otherwise
the calorie fields of the returned items). A positive calorie sum yields a
verified fact. -/
def lookup_api_ninjas (apiItems : Option (List ℚ)) : Option NutritionFact :=
  match apiItems with
  | none => none
  | some items =>
    let total_calories := items.sum
    if total_calories > 0 then
      some ⟨some total_calories, false, some "https://api-ninjas.com/api/nutrition"⟩
    else none

/-- `_search_web`, modelled at its boundary: the oracle value is the calorie
number and provenance link the search extraction would produce, shaped into a
verified fact exactly as the source does. -/
def search_web (webResult : Option (ℚ × Option String)) : Option NutritionFact :=
  match webResult with
  | none => none
  | some cu => some ⟨some cu.1, false, cu.2⟩

/-- `_estimate_with_llm`, parameterized by the bare number the text-completion
oracle would return (`none` when the client is absent, the call errors or no
number parses); the `50 ≤ c ≤ 2000` sanity range is enforced by the source. -/
def estimate_with_llm (llmNumber : Option ℚ) : Option NutritionFact :=
  match llmNumber with
  | none => none
  | some c =>
    if 50 ≤ c ∧ c ≤ 2000 then some ⟨some c, true, none⟩ else none

/-- Python truthiness check `result and result.get("calories")` applied to a
source result before it is accepted and cached. -/
def usable (r : Option NutritionFact) : Option NutritionFact :=
  match r with
  | some f =>
    match f.calories with
    | some c => if c ≠ 0 then some f else none
    | none => none
  | none => none

/-- `get_calories(dish_name, restaurant_name)` from `calorie_lookup.py`,
returning the resolved fact together with the cache state after the call.
The three external sources are oracle parameters. -/
def get_calories (db : List CacheRow) (dish_name : String)
    (restaurant_name : Option String) (apiItems : Option (List ℚ))
    (webResult : Option (ℚ × Option String)) (llmNumber : Option ℚ) :
    NutritionFact × List CacheRow :=
  match check_cache db dish_name restaurant_name with
  | some cached => (cached, db)
  | none =>
    match usable (lookup_api_ninjas apiItems) with
    | some f =>
      (f, save_to_cache db dish_name restaurant_name (f.calories.getD 0) f.source_url false)
    | none =>
      match usable (search_web webResult) with
      | some f =>
        (f, save_to_cache db dish_name restaurant_name (f.calories.getD 0) f.source_url false)
      | none =>
        match estimate_with_llm llmNumber with
        | some f =>
          (f, save_to_cache db dish_name restaurant_name (f.calories.getD 0) none true)
        | none => (⟨none, true, none⟩, db)

/-! ### Backtracking matchers for the source's regular expressions

A matcher maps an input to the list of `(consumed, rest)` splits at which the
pattern matches a prefix of the input, ordered by the backtracking priority of
Python's `re` engine (alternatives in written order, greedy quantifiers longest
first).  `re.search` semantics are recovered by trying successive suffixes and
keeping the first position with a nonempty list. -/

def M := List Char → List (List Char × List Char)

/-- Concatenation of two patterns. -/
def mseq (a b : M) : M := fun s =>
  (a s).flatMap fun p => (b p.2).map fun q => (p.1 ++ q.1, q.2)

/-- Ordered alternation of patterns. -/
def malt (ms : List M) : M := fun s => ms.flatMap (· s)

/-- Greedy optional pattern `x?`. -/
def mopt (a : M) : M := fun s => a s ++ [([], s)]

/-- Length of the maximal run of characters satisfying `p`. -/
def runLen (p : Char → Bool) (s : List Char) : Nat := (s.takeWhile p).length

/-- Greedy counted character class `[..]{lo,hi}`: split lengths from the
longest available down to `lo`. -/
def repClass (p : Char → Bool) (lo hi : Nat) : M := fun s =>
  let maxLen := min hi (runLen p s)
  (List.range (maxLen + 1)).filterMap fun k =>
    let len := maxLen - k
    if lo ≤ len then some (s.take len, s.drop len) else none

/-- Greedy `[..]+`. -/
def plusClass (p : Char → Bool) : M := fun s => repClass p 1 s.length s

/-- Greedy `[..]*`. -/
def starClass (p : Char → Bool) : M := fun s => repClass p 0 s.length s

/-- Literal string, case-sensitive. -/
def mlit (w : List Char) : M := fun s =>
  if w.isPrefixOf s then [(s.take w.length, s.drop w.length)] else []

/-- Literal string under `re.IGNORECASE`; `w` is given lower-cased. -/
def mlitCI (w : List Char) : M := fun s =>
  if (s.take w.length).map Char.toLower = w then [(s.take w.length, s.drop w.length)] else []

/-- Leftmost-match search: apply the position matcher `f` at every suffix in
order and keep the first success; models `re.search`. -/
def searchO {α : Type} (f : List Char → Option α) : List Char → Option α
  | [] => f []
  | c :: t =>
    match f (c :: t) with
    | some v => some v
    | none => searchO f t

/-- Soundness invariant of a matcher: every reported split is a decomposition
of the input. -/
def MOk (m : M) : Prop := ∀ s p, p ∈ m s → p.1 ++ p.2 = s

/-! ### `_extract_calorie_number` from `calorie_lookup.py` -/

/-- Number atom `\d+(?:,\d+)?` shared by the calorie patterns. -/
def numC : M :=
  mseq (plusClass Char.isDigit) (mopt (mseq (mlit [',']) (plusClass Char.isDigit)))

/-- Number atom `\d+(?:,\d+)?(?:\.\d+)?` of the first two calorie patterns. -/
def numDec : M :=
  mseq numC (mopt (mseq (mlit ['.']) (plusClass Char.isDigit)))

/-- Unit alternation `(?:kcal|calories|cal)` under `re.IGNORECASE`. -/
def unitM : M := malt [mlitCI "kcal".data, mlitCI "calories".data, mlitCI "cal".data]

/-- Does `\s*(?:kcal|calories|cal)` match a prefix of `r`? -/
def unitTailOk (r : List Char) : Bool := !((mseq (starClass isSpacePy) unitM) r).isEmpty

/-- Position matcher for calorie pattern 1,
`(\d+(?:,\d+)?(?:\.\d+)?)\s*(?:kcal|calories|cal)`; returns group 1. -/
def calP1At (s : List Char) : Option (List Char) :=
  (numDec s).findSome? fun pr => if unitTailOk pr.2 then some pr.1 else none

/-- Prefix `(?:calories|kcal)[:\s]*` of calorie pattern 2. -/
def calP2Prefix : M :=
  mseq (malt [mlitCI "calories".data, mlitCI "kcal".data])
    (starClass fun c => c == ':' || isSpacePy c)

/-- Position matcher for calorie pattern 2,
`(?:calories|kcal)[:\s]*(\d+(?:,\d+)?(?:\.\d+)?)`; returns group 1. -/
def calP2At (s : List Char) : Option (List Char) :=
  (calP2Prefix s).findSome? fun pr => ((numDec pr.2).head?).map (·.1)

/-- Separator `\s*-\s*` of the range pattern. -/
def rangeSep : M := mseq (mseq (starClass isSpacePy) (mlit ['-'])) (starClass isSpacePy)

/-- Position matcher for calorie pattern 3 (the range pattern),
`(\d+(?:,\d+)?)\s*-\s*(\d+(?:,\d+)?)\s*(?:kcal|calories|cal)`;
returns groups 1 and 2. -/
def calP3At (s : List Char) : Option (List Char × List Char) :=
  (numC s).findSome? fun pr1 =>
    (rangeSep pr1.2).findSome? fun ps =>
      (numC ps.2).findSome? fun pr2 =>
        if unitTailOk pr2.2 then some (pr1.1, pr2.1) else none

/-- Digit-string value. -/
def natOfDigits (ds : List Char) : Nat :=
  ds.foldl (fun a c => 10 * a + (c.toNat - 48)) 0

/-- Python `float(group.replace(",", ""))` on the digit groups matched above. -/
def parseNum (g : List Char) : ℚ :=
  let g' := g.filter (· != ',')
  let ip := g'.takeWhile (· != '.')
  let fp := (g'.dropWhile (· != '.')).drop 1
  (natOfDigits ip : ℚ) + (natOfDigits fp : ℚ) / (10 : ℚ) ^ fp.length

/-- `_extract_calorie_number(text)` from `calorie_lookup.py`: the three
patterns are tried in order; a two-group (range) match averages the endpoints,
a one-group match returns its number. -/
def extract_calorie_number (text : String) : Option ℚ :=
  match searchO calP1At text.data with
  | some g => some (parseNum g)
  | none =>
    match searchO calP2At text.data with
    | some g => some (parseNum g)
    | none =>
      match searchO calP3At text.data with
      | some gg => some ((parseNum gg.1 + parseNum gg.2) / 2)
      | none => none

/-! ### Order date extraction (`email_parser.py`) -/

/-- Python word-character class `\w` (ASCII part). -/
def isWordC (c : Char) : Bool := c.isAlphanum || c == '_'

/-- Character class "whitespace, slash or dash" used between date components. -/
def isDateSep (c : Char) : Bool := isSpacePy c || c == '/' || c == '-'

/-- Date pattern 1: 1-2 digits, a date separator, 3-9 word characters,
a date separator, 2-4 digits (one capture group around the whole match). -/
def dateM1 : M :=
  mseq (repClass Char.isDigit 1 2)
    (mseq (repClass isDateSep 1 1)
      (mseq (repClass isWordC 3 9)
        (mseq (repClass isDateSep 1 1) (repClass Char.isDigit 2 4))))

/-- Date pattern 2, `(\w{3,9}\s+\d{1,2},?\s*\d{4})`. -/
def dateM2 : M :=
  mseq (repClass isWordC 3 9)
    (mseq (plusClass isSpacePy)
      (mseq (repClass Char.isDigit 1 2)
        (mseq (mopt (mlit [',']))
          (mseq (starClass isSpacePy) (repClass Char.isDigit 4 4)))))

/-- Date pattern 3, `(\d{1,2}/\d{1,2}/\d{2,4})`. -/
def dateM3 : M :=
  mseq (repClass Char.isDigit 1 2)
    (mseq (mlit ['/'])
      (mseq (repClass Char.isDigit 1 2)
        (mseq (mlit ['/']) (repClass Char.isDigit 2 4))))

/-- Position matcher for a whole-match group pattern. -/
def groupAt (m : M) (s : List Char) : Option (List Char) :=
  (m s).head?.map (·.1)

/-- Value parsers for the `strptime` formats: all parses of a value from a
prefix of the input, in backtracking priority order. -/
def PV (α : Type) : Type := List Char → List (α × List Char)

def pvPure {α : Type} (a : α) : PV α := fun s => [(a, s)]

def pvBind {α β : Type} (p : PV α) (f : α → PV β) : PV β :=
  fun s => (p s).flatMap fun pr => f pr.1 pr.2

def pvThen {α β : Type} (p : PV α) (q : PV β) : PV β := pvBind p fun _ => q

/-- Literal character in a `strptime` format. -/
def pvLit (c : Char) : PV Unit := fun s =>
  match s with
  | x :: r => if x == c then [((), r)] else []
  | [] => []

/-- Whitespace in a `strptime` format, compiled by CPython to `\s+`. -/
def pvWs1 : PV Unit := fun s =>
  let n := runLen isSpacePy s
  (List.range n).map fun k => ((), s.drop (n - k))

def digitVal (c : Char) : Nat := c.toNat - 48

/-- CPython numeric directive shape `two-digit-alternatives|one-digit`:
a valid two-digit reading is preferred, then a valid single digit. -/
def pvNum2or1 (ok2 ok1 : Nat → Bool) : PV Nat := fun s =>
  let two : List (Nat × List Char) :=
    match s with
    | a :: b :: r =>
      if a.isDigit && b.isDigit && ok2 (10 * digitVal a + digitVal b) then
        [(10 * digitVal a + digitVal b, r)]
      else []
    | _ => []
  let one : List (Nat × List Char) :=
    match s with
    | a :: r => if a.isDigit && ok1 (digitVal a) then [(digitVal a, r)] else []
    | [] => []
  two ++ one

/-- `%d`: `(3[01]|[12]\d|0[1-9]|[1-9])`. -/
def pvDayNum : PV Nat := pvNum2or1 (fun v => decide (1 ≤ v ∧ v ≤ 31)) (fun v => decide (1 ≤ v))

/-- `%m`: `(1[0-2]|0[1-9]|[1-9])`. -/
def pvMonthNum : PV Nat := pvNum2or1 (fun v => decide (1 ≤ v ∧ v ≤ 12)) (fun v => decide (1 ≤ v))

/-- `%H`: `(2[0-3]|[0-1]\d|\d)`. -/
def pvHour24 : PV Nat := pvNum2or1 (fun v => decide (v ≤ 23)) (fun _ => true)

/-- `%I`: `(1[0-2]|0[1-9]|[1-9])`. -/
def pvHour12 : PV Nat := pvNum2or1 (fun v => decide (1 ≤ v ∧ v ≤ 12)) (fun v => decide (1 ≤ v))

/-- `%M`: `([0-5]\d|\d)`. -/
def pvMinNum : PV Nat := pvNum2or1 (fun v => decide (v ≤ 59)) (fun _ => true)

/-- `%Y`: exactly four digits. -/
def pvYear4 : PV Nat := fun s =>
  match s with
  | a :: b :: c :: d :: r =>
    if a.isDigit && b.isDigit && c.isDigit && d.isDigit then
      [(1000 * digitVal a + 100 * digitVal b + 10 * digitVal c + digitVal d, r)]
    else []
  | _ => []

/-- Case-insensitive name table lookup used for month names and am/pm. -/
def pvName (tbl : List (String × Nat)) : PV Nat := fun s =>
  tbl.flatMap fun wv =>
    let w := wv.1.data
    if (s.take w.length).map Char.toLower = w then [(wv.2, s.drop w.length)] else []

def MONTH_ABBRS : List (String × Nat) :=
  [("jan", 1), ("feb", 2), ("mar", 3), ("apr", 4), ("may", 5), ("jun", 6),
   ("jul", 7), ("aug", 8), ("sep", 9), ("oct", 10), ("nov", 11), ("dec", 12)]

/-- Full month names ordered by length descending, as CPython compiles them. -/
def MONTH_FULLS : List (String × Nat) :=
  [("september", 9), ("february", 2), ("november", 11), ("december", 12),
   ("january", 1), ("october", 10), ("august", 8), ("march", 3), ("april", 4),
   ("june", 6), ("july", 7), ("may", 5)]

/-- `%b`. -/
def pvMonthAbbr : PV Nat := pvName MONTH_ABBRS

/-- `%B`. -/
def pvMonthFull : PV Nat := pvName MONTH_FULLS

/-- `%p`: `am` or `pm`, case-insensitive; `true` means pm. -/
def pvAmPm : PV Bool := fun s =>
  (if (s.take 2).map Char.toLower = ['a', 'm'] then [(false, s.drop 2)] else []) ++
  (if (s.take 2).map Char.toLower = ['p', 'm'] then [(true, s.drop 2)] else [])

/-- CPython `strptime` takes the regex engine's preferred match and then
requires it to have consumed the whole string. -/
def runFull {α : Type} (p : PV α) (s : List Char) : Option α :=
  match (p s).head? with
  | some pr => if pr.2.isEmpty then some pr.1 else none
  | none => none

/-- A calendar date produced by a successful date `strptime`. -/
structure DateD where
  y : Nat
  m : Nat
  d : Nat
  deriving DecidableEq, Repr

def isLeap (y : Nat) : Bool := y % 4 == 0 && (y % 100 != 0 || y % 400 == 0)

def daysInMonth (y m : Nat) : Nat :=
  match m with
  | 1 => 31
  | 2 => if isLeap y then 29 else 28
  | 3 => 31
  | 4 => 30
  | 5 => 31
  | 6 => 30
  | 7 => 31
  | 8 => 31
  | 9 => 30
  | 10 => 31
  | 11 => 30
  | 12 => 31
  | _ => 0

/-- The `datetime` constructor validation that makes `strptime` raise on
impossible dates. -/
def validDate (y m d : Nat) : Option DateD :=
  if 1 ≤ y ∧ y ≤ 9999 ∧ 1 ≤ d ∧ d ≤ daysInMonth y m then some ⟨y, m, d⟩ else none

/-- `strptime(s, "%d %b %Y")`. -/
def fmtD_sp_b_Y (s : List Char) : Option DateD :=
  (runFull (pvBind pvDayNum fun d =>
    pvThen pvWs1 (pvBind pvMonthAbbr fun m =>
      pvThen pvWs1 (pvBind pvYear4 fun y => pvPure (y, m, d)))) s).bind
    fun t => validDate t.1 t.2.1 t.2.2

/-- `strptime(s, "%d-%b-%Y")`. -/
def fmtD_dash_b_Y (s : List Char) : Option DateD :=
  (runFull (pvBind pvDayNum fun d =>
    pvThen (pvLit '-') (pvBind pvMonthAbbr fun m =>
      pvThen (pvLit '-') (pvBind pvYear4 fun y => pvPure (y, m, d)))) s).bind
    fun t => validDate t.1 t.2.1 t.2.2

/-- `strptime(s, "%B %d, %Y")`. -/
def fmtB_d_comma_Y (s : List Char) : Option DateD :=
  (runFull (pvBind pvMonthFull fun m =>
    pvThen pvWs1 (pvBind pvDayNum fun d =>
      pvThen (pvLit ',') (pvThen pvWs1 (pvBind pvYear4 fun y => pvPure (y, m, d))))) s).bind
    fun t => validDate t.1 t.2.1 t.2.2

/-- `strptime(s, "%B %d %Y")`. -/
def fmtB_d_Y (s : List Char) : Option DateD :=
  (runFull (pvBind pvMonthFull fun m =>
    pvThen pvWs1 (pvBind pvDayNum fun d =>
      pvThen pvWs1 (pvBind pvYear4 fun y => pvPure (y, m, d)))) s).bind
    fun t => validDate t.1 t.2.1 t.2.2

/-- `strptime(s, "%d/%m/%Y")`. -/
def fmtD_slash_m_Y (s : List Char) : Option DateD :=
  (runFull (pvBind pvDayNum fun d =>
    pvThen (pvLit '/') (pvBind pvMonthNum fun m =>
      pvThen (pvLit '/') (pvBind pvYear4 fun y => pvPure (y, m, d)))) s).bind
    fun t => validDate t.1 t.2.1 t.2.2

/-- `strptime(s, "%m/%d/%Y")`. -/
def fmtM_slash_d_Y (s : List Char) : Option DateD :=
  (runFull (pvBind pvMonthNum fun m =>
    pvThen (pvLit '/') (pvBind pvDayNum fun d =>
      pvThen (pvLit '/') (pvBind pvYear4 fun y => pvPure (y, m, d)))) s).bind
    fun t => validDate t.1 t.2.1 t.2.2

/-- The date-format cascade of `_extract_order_date`, in source order. -/
def parseDateFormats (mstr : List Char) : Option DateD :=
  [fmtD_sp_b_Y, fmtD_dash_b_Y, fmtB_d_comma_Y, fmtB_d_Y, fmtD_slash_m_Y,
   fmtM_slash_d_Y].findSome? fun f => f mstr

/-- One date pattern of `_extract_order_date`: only the first `re.search`
match is handed to the format cascade; a parse failure falls through to the
next pattern exactly like a search failure. -/
def tryDatePattern (m : M) (text : List Char) : Option DateD :=
  (searchO (groupAt m) text).bind parseDateFormats

/-- The date-pattern loop of `_extract_order_date`. -/
def dateLoop (text : List Char) : Option DateD :=
  match tryDatePattern dateM1 text with
  | some dd => some dd
  | none =>
    match tryDatePattern dateM2 text with
    | some dd => some dd
    | none => tryDatePattern dateM3 text

/-- Inner group `\d{1,2}:\d{2}\s*(?:AM|PM|am|pm)` shared by the first two
time patterns. -/
def timeG12 : M :=
  mseq (repClass Char.isDigit 1 2)
    (mseq (mlit [':'])
      (mseq (repClass Char.isDigit 2 2)
        (mseq (starClass isSpacePy)
          (malt [mlit "AM".data, mlit "PM".data, mlit "am".data, mlit "pm".data]))))

/-- Prefix `(?:ordered?\s*at|time)[:\s]*` of the second time pattern. -/
def timeP2Prefix : M :=
  mseq
    (malt
      [mseq (mlit "ordere".data)
        (mseq (mopt (mlit ['d'])) (mseq (starClass isSpacePy) (mlit "at".data))),
       mlit "time".data])
    (starClass fun c => c == ':' || isSpacePy c)

/-- Position matcher for time pattern 2; returns group 1. -/
def timeP2At (s : List Char) : Option (List Char) :=
  (timeP2Prefix s).findSome? fun pr => ((timeG12 pr.2).head?).map (·.1)

/-- Group `(\d{1,2}:\d{2})` of the third time pattern. -/
def timeG3 : M :=
  mseq (repClass Char.isDigit 1 2) (mseq (mlit [':']) (repClass Char.isDigit 2 2))

/-- Position matcher for time pattern 3, `(\d{1,2}:\d{2})\s*(?:hrs|hours)`. -/
def timeP3At (s : List Char) : Option (List Char) :=
  (timeG3 s).findSome? fun pr =>
    if !((mseq (starClass isSpacePy) (malt [mlit "hrs".data, mlit "hours".data])) pr.2).isEmpty
    then some pr.1 else none

/-- Time-pattern loop of `_extract_order_date`: the first pattern with a regex
match wins; its match string is then (and only then) handed to the time
formats. -/
def searchTimeMatch (text : List Char) : Option (List Char) :=
  match searchO (groupAt timeG12) text with
  | some g => some g
  | none =>
    match searchO timeP2At text with
    | some g => some g
    | none => searchO timeP3At text

/-- `%p` conversion of `strptime`. -/
def hour24 (isPM : Bool) (h12 : Nat) : Nat :=
  if isPM then (if h12 == 12 then 12 else h12 + 12)
  else (if h12 == 12 then 0 else h12)

/-- `strptime(s, "%I:%M %p")`. -/
def fmtI_M_p (s : List Char) : Option (Nat × Nat) :=
  runFull (pvBind pvHour12 fun h =>
    pvThen (pvLit ':') (pvBind pvMinNum fun mi =>
      pvThen pvWs1 (pvBind pvAmPm fun pm => pvPure (hour24 pm h, mi)))) s

/-- `strptime(s, "%I:%M%p")`. -/
def fmtI_Mp (s : List Char) : Option (Nat × Nat) :=
  runFull (pvBind pvHour12 fun h =>
    pvThen (pvLit ':') (pvBind pvMinNum fun mi =>
      pvBind pvAmPm fun pm => pvPure (hour24 pm h, mi))) s

/-- `strptime(s, "%H:%M")`. -/
def fmtH_M (s : List Char) : Option (Nat × Nat) :=
  runFull (pvBind pvHour24 fun h =>
    pvThen (pvLit ':') (pvBind pvMinNum fun mi => pvPure (h, mi))) s

/-- The time-format cascade of `_extract_order_date`, in source order. -/
def parseTimeFormats (tstr : List Char) : Option (Nat × Nat) :=
  [fmtI_M_p, fmtI_Mp, fmtH_M].findSome? fun f => f tstr

/-- A timestamp with minute precision, as produced by `datetime`. -/
structure DateTime where
  y : Nat
  m : Nat
  d : Nat
  hour : Nat
  minute : Nat
  deriving DecidableEq, Repr

/-- An exact-midnight timestamp, the "time unknown" sentinel. -/
def isMidnight (dt : DateTime) : Prop := dt.hour = 0 ∧ dt.minute = 0

/-- `_extract_order_date(soup, subject)` from `email_parser.py`, over the
body text `soup.get_text()`.  A parsed date starts at midnight; the first
time-pattern match, when it also parses, replaces hour and minute.  When no
date pattern yields a date the function returns `None` (the time scan still
runs in the source but attaches to nothing). -/
def extract_order_date (text : List Char) : Option DateTime :=
  match dateLoop text with
  | none => none
  | some dd =>
    match searchTimeMatch text with
    | none => some ⟨dd.y, dd.m, dd.d, 0, 0⟩
    | some tstr =>
      match parseTimeFormats tstr with
      | none => some ⟨dd.y, dd.m, dd.d, 0, 0⟩
      | some hm => some ⟨dd.y, dd.m, dd.d, hm.1, hm.2⟩

/-- A line item extracted by `_extract_dishes`. -/
structure DishItem where
  name : String
  quantity : Nat
  deriving DecidableEq, Repr

/-- The dictionary returned by `_parse_html`. -/
structure ParsedOrder where
  restaurant_name : String
  order_date : DateTime
  dishes : List DishItem
  deriving DecidableEq, Repr

/-- `_parse_html(body, subject)` from `email_parser.py`.  The restaurant-name
and dish extraction helpers touch only HTML structure, independent of the date
logic, and are modelled at their boundary as the values they return; the body
text seen by `_extract_order_date` and the clock value `datetime.now()` are
explicit parameters.  A candidate is produced only when a restaurant name and
at least one dish were found, and its `order_date` is the extracted date or,
when that is `None`, the current time. -/
def parse_html (restaurantR : Option String) (dishesR : List DishItem)
    (bodyText : List Char) (now : DateTime) : Option ParsedOrder :=
  if restTruthy restaurantR && !dishesR.isEmpty then
    some ⟨restaurantR.getD "", (extract_order_date bodyText).getD now, dishesR⟩
  else none

/-- The daily-score computation with the per-day dish-category adjustment
written as the sum of per-order first-match penalties; the amended form of
claim C4's description. -/
def amended_daily_scores (daily_orders : List (String × List DayOrder))
    (base_health_index : Int) : List (String × Int) :=
  if daily_orders.isEmpty then []
  else
    let total_calories : ℚ :=
      (daily_orders.map fun p => ((p.2.map (·.calories)).sum)).sum
    let avg_calories : ℚ := total_calories / (daily_orders.length : ℚ)
    daily_orders.map fun p =>
      let orders := p.2
      let day_calories : ℚ := (orders.map (·.calories)).sum
      let calAdj : Int :=
        if avg_calories > 0 then
          let calorie_ratio := day_calories / avg_calories
          if calorie_ratio > 3/2 then -15
          else if calorie_ratio > 6/5 then -8
          else if calorie_ratio < 4/5 then 5
          else 0
        else 0
      let lateAdj : Int :=
        if orders.any (fun o => o.hour ≥ 22 || o.hour < 5) then -10 else 0
      let adjustment := calAdj + lateAdj + (orders.map orderPenalty).sum
      (p.1, max 0 (min 100 (base_health_index + adjustment)))

/-! ## Helper lemmas -/

theorem isPrefixOf_self (l : List Char) : l.isPrefixOf l = true := by
  induction l with
  | nil => rfl
  | cons a t ih => simp [List.isPrefixOf, ih]

theorem containsSub_self (s : List Char) : containsSub s s = true := by
  unfold containsSub
  refine List.any_eq_true.mpr ⟨0, ?_, ?_⟩
  · simp
  · simp [isPrefixOf_self s]

theorem ilikeSub_self (s : String) : ilikeSub s s = true := by
  unfold ilikeSub
  exact containsSub_self _

theorem floors_find_nil :
    RESTAURANT_CATEGORY_FLOORS.find? (fun p => containsSub [] p.1.data) = none := by
  decide

/-! ## C10 and the classification claims -/

/-- C10: on an empty dish-frequency list `compute_health_index` returns
index 50 and an empty category breakdown, whatever the late-night percentage
and average-daily-calories arguments are. -/
theorem c10_empty_history (p c : ℚ) : compute_health_index [] p c = (50, []) := rfl

/-- C1: a dish name containing a healthy-preparation keyword classifies as
category A whenever the restaurant matches no chain-floor identifier,
regardless of any other keywords in the name. -/
theorem c1_healthy_prep_overrides (dish rest : String)
    (hkw : anyKeyword (nameKey dish) healthy_preps = true)
    (hfl : RESTAURANT_CATEGORY_FLOORS.find?
      (fun p => containsSub (nameKey rest) p.1.data) = none) :
    classify_dish dish rest = Cat.A := by
  have hcat : keywordCategory (nameKey dish) = Cat.A := by
    unfold keywordCategory
    rw [hkw]
    rfl
  show (if (nameKey rest).isEmpty then keywordCategory (nameKey dish)
        else applyFloor (keywordCategory (nameKey dish)) (nameKey rest)) = Cat.A
  rw [hcat]
  by_cases he : (nameKey rest).isEmpty
  · rw [he]
    rfl
  · simp only [he, Bool.false_eq_true, if_false]
    unfold applyFloor
    rw [hfl]

theorem c1_healthy_prep_overrides_witness :
    (anyKeyword (nameKey "Grilled Fried Chicken Salad") healthy_preps = true ∧
      RESTAURANT_CATEGORY_FLOORS.find?
        (fun p => containsSub (nameKey "Local Eats") p.1.data) = none) ∧
    classify_dish "Grilled Fried Chicken Salad" "Local Eats" = Cat.A :=
  ⟨⟨by decide, by decide⟩,
    c1_healthy_prep_overrides "Grilled Fried Chicken Salad" "Local Eats"
      (by decide) (by decide)⟩

/-- C2: when the restaurant matches a chain-floor identifier (the first match
in table order, as the source's loop breaks there), the returned category is
never better than that chain's floor and never better than the keyword-only
category: the floor only worsens, never improves, the classification. -/
theorem c2_restaurant_floor (dish rest : String) (kf : String × Cat)
    (hfl : RESTAURANT_CATEGORY_FLOORS.find?
      (fun p => containsSub (nameKey rest) p.1.data) = some kf) :
    CATEGORY_ORDER kf.2 ≤ CATEGORY_ORDER (classify_dish dish rest) ∧
    CATEGORY_ORDER (keywordCategory (nameKey dish)) ≤
      CATEGORY_ORDER (classify_dish dish rest) := by
  have he : (nameKey rest).isEmpty = false := by
    rcases hrl : nameKey rest with _ | ⟨a, t⟩
    · rw [hrl] at hfl
      rw [floors_find_nil] at hfl
      exact absurd hfl (by simp)
    · rfl
  have hcl : classify_dish dish rest =
      applyFloor (keywordCategory (nameKey dish)) (nameKey rest) := by
    show (if (nameKey rest).isEmpty then keywordCategory (nameKey dish)
          else applyFloor (keywordCategory (nameKey dish)) (nameKey rest)) =
        applyFloor (keywordCategory (nameKey dish)) (nameKey rest)
    rw [he]
    rfl
  rw [hcl]
  unfold applyFloor
  rw [hfl]
  by_cases hlt : CATEGORY_ORDER (keywordCategory (nameKey dish)) < CATEGORY_ORDER kf.2
  · simp only [hlt, if_true]
    exact ⟨le_refl _, le_of_lt hlt⟩
  · simp only [hlt, if_false]
    exact ⟨le_of_not_lt hlt, le_refl _⟩

theorem c2_restaurant_floor_witness :
    (RESTAURANT_CATEGORY_FLOORS.find?
      (fun p => containsSub (nameKey "Pizza Hut") p.1.data) = some ("pizza hut", Cat.C)) ∧
    (CATEGORY_ORDER ("pizza hut", Cat.C).2 ≤
        CATEGORY_ORDER (classify_dish "Veggie Salad" "Pizza Hut") ∧
      CATEGORY_ORDER (keywordCategory (nameKey "Veggie Salad")) ≤
        CATEGORY_ORDER (classify_dish "Veggie Salad" "Pizza Hut")) :=
  ⟨by decide, c2_restaurant_floor "Veggie Salad" "Pizza Hut" ("pizza hut", Cat.C) (by decide)⟩

/-! ## The health-index formula (C3) and its monotonicity (C5) -/

theorem pyRound_le (q : ℚ) : pyRound q ≤ ⌊q⌋ + 1 := by
  simp only [pyRound]
  split_ifs <;> omega

theorem le_pyRound (q : ℚ) : ⌊q⌋ ≤ pyRound q := by
  simp only [pyRound]
  split_ifs <;> omega

theorem pyRound_mono {a b : ℚ} (hab : a ≤ b) : pyRound a ≤ pyRound b := by
  rcases lt_or_le ⌊a⌋ ⌊b⌋ with hf | hf
  · have h1 := pyRound_le a
    have h2 := le_pyRound b
    omega
  · have hfe : ⌊a⌋ = ⌊b⌋ := le_antisymm (Int.floor_le_floor hab) hf
    have hr : a - ⌊b⌋ ≤ b - ⌊b⌋ := by
      rw [← hfe]
      have := Int.floor_le a
      linarith
    simp only [pyRound]
    rw [hfe]
    split_ifs <;> first | omega | (exfalso; linarith)

theorem totalC_append (a b : List DishFreq) : totalC (a ++ b) = totalC a + totalC b := by
  simp [totalC]

theorem totalC_single (d : DishFreq) : totalC [d] = d.count := by
  simp [totalC]

theorem totalW_append (a b : List DishFreq) : totalW (a ++ b) = totalW a + totalW b := by
  simp [totalW]

theorem totalW_single (d : DishFreq) :
    totalW [d] = (CATEGORY_RAW_SCORES (classify_dish d.name d.restaurant) : ℚ) * d.count := by
  simp [totalW]

theorem foldl_computeStep_fst (l : List DishFreq) (w : ℚ) (n : Nat) (cc : CatCounts) :
    (l.foldl computeStep (w, n, cc)).1 = w + totalW l := by
  induction l generalizing w n cc with
  | nil => simp [totalW]
  | cons d t ih =>
    rw [List.foldl_cons]
    show (t.foldl computeStep
      (w + (CATEGORY_RAW_SCORES (classify_dish d.name d.restaurant) : ℚ) * d.count,
        n + d.count,
        cc.incr (classify_dish d.name d.restaurant) d.count)).1 = w + totalW (d :: t)
    rw [ih]
    simp [totalW]
    ring

theorem foldl_computeStep_cnt (l : List DishFreq) (w : ℚ) (n : Nat) (cc : CatCounts) :
    (l.foldl computeStep (w, n, cc)).2.1 = n + totalC l := by
  induction l generalizing w n cc with
  | nil => simp [totalC]
  | cons d t ih =>
    rw [List.foldl_cons]
    show (t.foldl computeStep
      (w + (CATEGORY_RAW_SCORES (classify_dish d.name d.restaurant) : ℚ) * d.count,
        n + d.count,
        cc.incr (classify_dish d.name d.restaurant) d.count)).2.1 = n + totalC (d :: t)
    rw [ih]
    simp [totalC]
    omega

theorem compute_health_index_closed (l : List DishFreq) (p c : ℚ)
    (hne : l ≠ []) (hc : totalC l ≠ 0) :
    (compute_health_index l p c).1 =
      max 0 (min 100 (pyRound (100 - ((totalW l / (totalC l : ℚ) + 15) * 100 / 55)
        - (if p > 20 then (5 : ℚ) else 0) - (if c > 2500 then (5 : ℚ) else 0)))) := by
  have hE : l.isEmpty = false := by
    cases l with
    | nil => exact absurd rfl hne
    | cons a t => rfl
  simp only [compute_health_index, hE, Bool.false_eq_true, if_false,
    foldl_computeStep_fst, foldl_computeStep_cnt, Nat.zero_add, zero_add]
  simp only [hc, if_false]
  congr 1
  congr 1
  congr 1
  split_ifs <;> ring

theorem compute_health_index_zero_count (l : List DishFreq) (p c : ℚ)
    (hne : l ≠ []) (hc : totalC l = 0) :
    (compute_health_index l p c).1 = 50 := by
  have hE : l.isEmpty = false := by
    cases l with
    | nil => exact absurd rfl hne
    | cons a t => rfl
  simp only [compute_health_index, hE, Bool.false_eq_true, if_false,
    foldl_computeStep_cnt, Nat.zero_add, zero_add]
  simp only [hc, if_true]

/-- C3: for a history with a positive total dish count, the health index is
exactly the count-weighted average raw score mapped through
`100 - ((avg + 15) * 100 / 55)`, minus 5 for a late-night percentage above 20,
minus 5 for average daily calories above 2500, rounded and clamped to
`[0, 100]`. -/
theorem c3_health_index_formula (l : List DishFreq) (p c : ℚ)
    (hne : l ≠ []) (hc : totalC l ≠ 0) :
    (compute_health_index l p c).1 =
      max 0 (min 100 (pyRound (100 - ((totalW l / (totalC l : ℚ) + 15) * 100 / 55)
        - (if p > 20 then (5 : ℚ) else 0) - (if c > 2500 then (5 : ℚ) else 0)))) :=
  compute_health_index_closed l p c hne hc

theorem c3_health_index_formula_witness :
    (([⟨"Dal Tadka", 10, ""⟩, ⟨"Gulab Jamun", 10, ""⟩] : List DishFreq) ≠ [] ∧
      totalC [⟨"Dal Tadka", 10, ""⟩, ⟨"Gulab Jamun", 10, ""⟩] ≠ 0) ∧
    (compute_health_index [⟨"Dal Tadka", 10, ""⟩, ⟨"Gulab Jamun", 10, ""⟩] 0 2000).1 =
      max 0 (min 100 (pyRound (100 -
        ((totalW [⟨"Dal Tadka", 10, ""⟩, ⟨"Gulab Jamun", 10, ""⟩] /
          (totalC [⟨"Dal Tadka", 10, ""⟩, ⟨"Gulab Jamun", 10, ""⟩] : ℚ) + 15) * 100 / 55)
        - (if (0 : ℚ) > 20 then (5 : ℚ) else 0)
        - (if (2000 : ℚ) > 2500 then (5 : ℚ) else 0)))) :=
  ⟨⟨by decide, by decide⟩,
    c3_health_index_formula [⟨"Dal Tadka", 10, ""⟩, ⟨"Gulab Jamun", 10, ""⟩] 0 2000
      (by decide) (by decide)⟩

/-- C5: replacing a category-A dish by a category-E dish with the same count,
with the penalty arguments held fixed, can only lower (or keep) the index. -/
theorem c5_severity_monotone (l1 l2 : List DishFreq) (dA dE : DishFreq) (p c : ℚ)
    (hA : classify_dish dA.name dA.restaurant = Cat.A)
    (hE : classify_dish dE.name dE.restaurant = Cat.E)
    (hcount : dE.count = dA.count) :
    (compute_health_index (l1 ++ [dE] ++ l2) p c).1 ≤
      (compute_health_index (l1 ++ [dA] ++ l2) p c).1 := by
  have hneE : l1 ++ [dE] ++ l2 ≠ [] := by simp
  have hneA : l1 ++ [dA] ++ l2 ≠ [] := by simp
  have hcE : totalC (l1 ++ [dE] ++ l2) = totalC l1 + dA.count + totalC l2 := by
    rw [totalC_append, totalC_append, totalC_single, hcount]
  have hcA : totalC (l1 ++ [dA] ++ l2) = totalC l1 + dA.count + totalC l2 := by
    rw [totalC_append, totalC_append, totalC_single]
  by_cases hz : totalC (l1 ++ [dA] ++ l2) = 0
  · have hzE : totalC (l1 ++ [dE] ++ l2) = 0 := by
      rw [hcE, ← hcA]
      exact hz
    rw [compute_health_index_zero_count _ p c hneE hzE,
      compute_health_index_zero_count _ p c hneA hz]
  · have hzE : totalC (l1 ++ [dE] ++ l2) ≠ 0 := by
      rw [hcE, ← hcA]
      exact hz
    rw [compute_health_index_closed _ p c hneE hzE,
      compute_health_index_closed _ p c hneA hz]
    apply max_le_max (le_refl 0)
    apply min_le_min (le_refl 100)
    apply pyRound_mono
    have hWE : totalW (l1 ++ [dE] ++ l2) = totalW l1 + 37 * dE.count + totalW l2 := by
      rw [totalW_append, totalW_append, totalW_single, hE]
      show totalW l1 + ((37 : ℚ) * dE.count) + totalW l2 = _
      ring
    have hWA : totalW (l1 ++ [dA] ++ l2) = totalW l1 + (-7) * dA.count + totalW l2 := by
      rw [totalW_append, totalW_append, totalW_single, hA]
      show totalW l1 + ((-7 : ℚ) * dA.count) + totalW l2 = _
      ring
    have hncast : (totalC (l1 ++ [dE] ++ l2) : ℚ) = (totalC (l1 ++ [dA] ++ l2) : ℚ) := by
      rw [hcE, ← hcA]
    have hnpos : (0 : ℚ) < (totalC (l1 ++ [dA] ++ l2) : ℚ) := by
      exact_mod_cast Nat.pos_of_ne_zero hz
    rw [hWE, hWA, hncast, hcount]
    have hdiv : (totalW l1 + (-7) * (dA.count : ℚ) + totalW l2) /
          (totalC (l1 ++ [dA] ++ l2) : ℚ) ≤
        (totalW l1 + 37 * (dA.count : ℚ) + totalW l2) /
          (totalC (l1 ++ [dA] ++ l2) : ℚ) := by
      apply div_le_div_of_nonneg_right ?_ (le_of_lt hnpos)
      have : (0 : ℚ) ≤ (dA.count : ℚ) := Nat.cast_nonneg _
      linarith
    linarith [hdiv]

theorem c5_severity_monotone_witness :
    (classify_dish "salad" "" = Cat.A ∧ classify_dish "cake" "" = Cat.E ∧
      (⟨"cake", 2, ""⟩ : DishFreq).count = (⟨"salad", 2, ""⟩ : DishFreq).count) ∧
    (compute_health_index ([] ++ [⟨"cake", 2, ""⟩] ++ []) 0 0).1 ≤
      (compute_health_index ([] ++ [⟨"salad", 2, ""⟩] ++ []) 0 0).1 :=
  ⟨⟨by decide, by decide, by decide⟩,
    c5_severity_monotone [] [] ⟨"salad", 2, ""⟩ ⟨"cake", 2, ""⟩ 0 0
      (by decide) (by decide) (by decide)⟩

/-! ## Daily scores (C4) -/

theorem dishStep_eq (a : Int) (o : DayOrder) : dishStep a o = a + orderPenalty o := by
  unfold dishStep orderPenalty
  rcases h : o.dishes.findSome? (fun dish_name =>
    let cat := classify_dish dish_name o.restaurant
    if cat = Cat.D then some (-5 : Int)
    else if cat = Cat.E then some (-8 : Int)
    else none) with _ | pv <;> simp

theorem foldl_dishStep (os : List DayOrder) (a : Int) :
    os.foldl dishStep a = a + (os.map orderPenalty).sum := by
  induction os generalizing a with
  | nil => simp
  | cons o t ih =>
    rw [List.foldl_cons, dishStep_eq, ih]
    simp
    ring

/-- C4 counterexample: on a day with one order listing a `D` dish before an
`E` dish, the code charges `-5` (the first dish that breaks the scan), while
the claimed rule "any `E` dish that day gives `-8`, with E checked before D"
would charge `-8`; from base 50 the code yields 45, the claim 42. -/
theorem c4_counterexample :
    calculate_daily_health_scores
        [("2024-01-01", [⟨500, 12, ["Samosa", "Gulab Jamun"], ""⟩])] 50
      = [("2024-01-01", 45)] ∧
    claimed_daily_scores
        [("2024-01-01", [⟨500, 12, ["Samosa", "Gulab Jamun"], ""⟩])] 50
      = [("2024-01-01", 42)] ∧
    calculate_daily_health_scores
        [("2024-01-01", [⟨500, 12, ["Samosa", "Gulab Jamun"], ""⟩])] 50
      ≠ claimed_daily_scores
        [("2024-01-01", [⟨500, 12, ["Samosa", "Gulab Jamun"], ""⟩])] 50 := by
  have hS : classify_dish "Samosa" "" = Cat.D := by decide
  have hG : classify_dish "Gulab Jamun" "" = Cat.E := by decide
  have h1 : calculate_daily_health_scores
      [("2024-01-01", [⟨500, 12, ["Samosa", "Gulab Jamun"], ""⟩])] 50
      = [("2024-01-01", 45)] := by
    unfold calculate_daily_health_scores
    norm_num [dishCategoryAdjustment, dishStep, List.findSome?, hS, hG]
  have h2 : claimed_daily_scores
      [("2024-01-01", [⟨500, 12, ["Samosa", "Gulab Jamun"], ""⟩])] 50
      = [("2024-01-01", 42)] := by
    unfold claimed_daily_scores
    norm_num [claimedDishAdjustment, hG]
  refine ⟨h1, h2, ?_⟩
  rw [h1, h2]
  simp

/-- C4 amended: the dish-category adjustment is applied per order, not once
per day: each order contributes the penalty of its first dish classifying as
`D` (`-5`) or `E` (`-8`) in dish-list order, the per-order penalties add up
over the day, and the resulting daily score is clamped to `[0, 100]`. -/
theorem c4_daily_penalty_amended (daily_orders : List (String × List DayOrder))
    (base : Int) :
    calculate_daily_health_scores daily_orders base =
      amended_daily_scores daily_orders base := by
  unfold calculate_daily_health_scores amended_daily_scores
  simp only [dishCategoryAdjustment, foldl_dishStep, zero_add]

/-! ## Nutrition resolver (C6, C7) -/

theorem check_cache_ne_none_of_mem (db : List CacheRow) (dish : String)
    (rest : Option String) (row : CacheRow) (hmem : row ∈ db)
    (hlike : ilikeSub row.dish_name dish = true) :
    check_cache db dish rest ≠ none := by
  unfold check_cache
  have hq : row ∈ db.filter (fun r => ilikeSub r.dish_name dish) :=
    List.mem_filter.mpr ⟨hmem, hlike⟩
  rcases hq' : db.filter (fun r => ilikeSub r.dish_name dish) with _ | ⟨r, t⟩
  · rw [hq'] at hq
    exact absurd hq (List.not_mem_nil row)
  · simp only [hq']
    rcases hw : (if restTruthy rest = true then
        List.find? (fun x => rowRestMatch x (rest.getD "")) (r :: t) else none) with _ | rr
    · simp [hw]
    · simp [hw]

theorem ilike_false_of_check_cache_none (db : List CacheRow) (dish : String)
    (rest : Option String) (h : check_cache db dish rest = none) :
    ∀ row ∈ db, ilikeSub row.dish_name dish = false := by
  intro row hmem
  cases hb : ilikeSub row.dish_name dish
  · rfl
  · exact absurd h (check_cache_ne_none_of_mem db dish rest row hmem hb)

theorem check_cache_after_save (db : List CacheRow) (dish : String)
    (rest : Option String) (cal : ℚ) (url : Option String) (est : Bool)
    (h0 : check_cache db dish rest = none) :
    check_cache (db ++ [⟨dish, rest, cal, url, est⟩]) dish rest
      = some ⟨some cal, est, url⟩ := by
  have hflt : (db ++ [(⟨dish, rest, cal, url, est⟩ : CacheRow)]).filter
      (fun r => ilikeSub r.dish_name dish)
      = [(⟨dish, rest, cal, url, est⟩ : CacheRow)] := by
    rw [List.filter_append]
    have h1 : db.filter (fun r => ilikeSub r.dish_name dish) = [] := by
      refine List.filter_eq_nil_iff.mpr ?_
      intro a ha
      rw [ilike_false_of_check_cache_none db dish rest h0 a ha]
      simp
    rw [h1]
    simp [List.filter, ilikeSub_self]
  unfold check_cache
  simp only [hflt]
  cases ht : restTruthy rest
  · simp [ht, rowFact]
  · have hrm : rowRestMatch ⟨dish, rest, cal, url, est⟩ (rest.getD "") = true := by
      rcases rest with _ | s
      · rw [restTruthy] at ht
        exact absurd ht (by simp)
      · show ilikeSub s s = true
        exact ilikeSub_self s
    simp [ht, List.find?, hrm, rowFact]

theorem get_calories_hit (db : List CacheRow) (dish : String) (rest : Option String)
    (f : NutritionFact) (api : Option (List ℚ)) (web : Option (ℚ × Option String))
    (llm : Option ℚ) (h : check_cache db dish rest = some f) :
    get_calories db dish rest api web llm = (f, db) := by
  unfold get_calories
  rw [h]

theorem usable_api_shape (api : Option (List ℚ)) (f : NutritionFact)
    (h : usable (lookup_api_ninjas api) = some f) :
    ∃ cal, f = ⟨some cal, false, some "https://api-ninjas.com/api/nutrition"⟩ := by
  rcases api with _ | items
  · exact absurd h (by simp [lookup_api_ninjas, usable])
  · simp only [lookup_api_ninjas] at h
    by_cases hp : items.sum > 0
    · rw [if_pos hp] at h
      simp only [usable] at h
      rw [if_pos (ne_of_gt hp)] at h
      injection h with h'
      exact ⟨items.sum, h'.symm⟩
    · rw [if_neg hp] at h
      exact absurd h (by simp [usable])

theorem usable_web_shape (web : Option (ℚ × Option String)) (f : NutritionFact)
    (h : usable (search_web web) = some f) :
    ∃ cal url, f = ⟨some cal, false, url⟩ := by
  rcases web with _ | cu
  · exact absurd h (by simp [search_web, usable])
  · simp only [search_web, usable] at h
    by_cases hnz : cu.1 ≠ 0
    · rw [if_pos hnz] at h
      injection h with h'
      exact ⟨cu.1, cu.2, h'.symm⟩
    · rw [if_neg hnz] at h
      exact absurd h (by simp)

theorem llm_shape (llm : Option ℚ) (f : NutritionFact)
    (h : estimate_with_llm llm = some f) : ∃ cal, f = ⟨some cal, true, none⟩ := by
  rcases llm with _ | c
  · exact absurd h (by simp [estimate_with_llm])
  · simp only [estimate_with_llm] at h
    by_cases hr : 50 ≤ c ∧ c ≤ 2000
    · rw [if_pos hr] at h
      injection h with h'
      exact ⟨c, h'.symm⟩
    · rw [if_neg hr] at h
      exact absurd h (by simp)

theorem get_calories_api (db : List CacheRow) (dish : String) (rest : Option String)
    (api : Option (List ℚ)) (web : Option (ℚ × Option String)) (llm : Option ℚ)
    (f : NutritionFact) (h0 : check_cache db dish rest = none)
    (h1 : usable (lookup_api_ninjas api) = some f) :
    get_calories db dish rest api web llm
      = (f, save_to_cache db dish rest (f.calories.getD 0) f.source_url false) := by
  unfold get_calories
  rw [h0, h1]

theorem get_calories_web (db : List CacheRow) (dish : String) (rest : Option String)
    (api : Option (List ℚ)) (web : Option (ℚ × Option String)) (llm : Option ℚ)
    (f : NutritionFact) (h0 : check_cache db dish rest = none)
    (h1 : usable (lookup_api_ninjas api) = none)
    (h2 : usable (search_web web) = some f) :
    get_calories db dish rest api web llm
      = (f, save_to_cache db dish rest (f.calories.getD 0) f.source_url false) := by
  unfold get_calories
  rw [h0, h1, h2]

theorem get_calories_llm (db : List CacheRow) (dish : String) (rest : Option String)
    (api : Option (List ℚ)) (web : Option (ℚ × Option String)) (llm : Option ℚ)
    (f : NutritionFact) (h0 : check_cache db dish rest = none)
    (h1 : usable (lookup_api_ninjas api) = none)
    (h2 : usable (search_web web) = none)
    (h3 : estimate_with_llm llm = some f) :
    get_calories db dish rest api web llm
      = (f, save_to_cache db dish rest (f.calories.getD 0) none true) := by
  unfold get_calories
  rw [h0, h1, h2, h3]

theorem get_calories_terminal (db : List CacheRow) (dish : String)
    (rest : Option String) (api : Option (List ℚ)) (web : Option (ℚ × Option String))
    (llm : Option ℚ) (h0 : check_cache db dish rest = none)
    (h1 : usable (lookup_api_ninjas api) = none)
    (h2 : usable (search_web web) = none)
    (h3 : estimate_with_llm llm = none) :
    get_calories db dish rest api web llm = (⟨none, true, none⟩, db) := by
  unfold get_calories
  rw [h0, h1, h2, h3]

/-- C6: after a resolution that misses the cache, succeeds and writes its
fact, re-resolving the same dish and restaurant is answered by the cache
lookup alone — the result is independent of all source oracles, carries the
same calories and estimation flag, and performs no further write. -/
theorem c6_cache_roundtrip (db : List CacheRow) (dish : String) (rest : Option String)
    (api : Option (List ℚ)) (web : Option (ℚ × Option String)) (llm : Option ℚ)
    (api2 : Option (List ℚ)) (web2 : Option (ℚ × Option String)) (llm2 : Option ℚ)
    (hW : (get_calories db dish rest api web llm).2 ≠ db) :
    check_cache (get_calories db dish rest api web llm).2 dish rest
        = some (get_calories (get_calories db dish rest api web llm).2
            dish rest api2 web2 llm2).1 ∧
    (get_calories (get_calories db dish rest api web llm).2
        dish rest api2 web2 llm2).1.calories
      = (get_calories db dish rest api web llm).1.calories ∧
    (get_calories (get_calories db dish rest api web llm).2
        dish rest api2 web2 llm2).1.is_estimated
      = (get_calories db dish rest api web llm).1.is_estimated ∧
    (get_calories (get_calories db dish rest api web llm).2
        dish rest api2 web2 llm2).2
      = (get_calories db dish rest api web llm).2 := by
  rcases h0 : check_cache db dish rest with _ | f0
  case some =>
    rw [get_calories_hit db dish rest f0 api web llm h0] at hW
    exact absurd rfl hW
  case none =>
  have hkey : ∃ cal url est,
      get_calories db dish rest api web llm
        = (⟨some cal, est, url⟩, db ++ [(⟨dish, rest, cal, url, est⟩ : CacheRow)]) := by
    rcases h1 : usable (lookup_api_ninjas api) with _ | f1
    · rcases h2 : usable (search_web web) with _ | f2
      · rcases h3 : estimate_with_llm llm with _ | f3
        · rw [get_calories_terminal db dish rest api web llm h0 h1 h2 h3] at hW
          exact absurd rfl hW
        · obtain ⟨cal, hf3⟩ := llm_shape llm f3 h3
          subst hf3
          rw [get_calories_llm db dish rest api web llm _ h0 h1 h2 h3]
          exact ⟨cal, none, true, rfl⟩
      · obtain ⟨cal, url, hf2⟩ := usable_web_shape web f2 h2
        subst hf2
        rw [get_calories_web db dish rest api web llm _ h0 h1 h2]
        exact ⟨cal, url, false, rfl⟩
    · obtain ⟨cal, hf1⟩ := usable_api_shape api f1 h1
      subst hf1
      rw [get_calories_api db dish rest api web llm _ h0 h1]
      exact ⟨cal, some "https://api-ninjas.com/api/nutrition", false, rfl⟩
  obtain ⟨cal, url, est, hkey⟩ := hkey
  have hcc : check_cache (get_calories db dish rest api web llm).2 dish rest
      = some ⟨some cal, est, url⟩ := by
    rw [hkey]
    exact check_cache_after_save db dish rest cal url est h0
  have hhit := get_calories_hit (get_calories db dish rest api web llm).2 dish rest
    ⟨some cal, est, url⟩ api2 web2 llm2 hcc
  refine ⟨?_, ?_, ?_, ?_⟩
  · rw [hhit, hcc]
  · rw [hhit, hkey]
  · rw [hhit, hkey]
  · rw [hhit]

theorem c6_cache_roundtrip_witness :
    ((get_calories [] "Paneer Tikka" (some "Spice Villa") (some [320]) none none).2 ≠ []) ∧
    (check_cache (get_calories [] "Paneer Tikka" (some "Spice Villa")
          (some [320]) none none).2 "Paneer Tikka" (some "Spice Villa")
        = some (get_calories (get_calories [] "Paneer Tikka" (some "Spice Villa")
            (some [320]) none none).2 "Paneer Tikka" (some "Spice Villa")
            none none none).1 ∧
      (get_calories (get_calories [] "Paneer Tikka" (some "Spice Villa")
          (some [320]) none none).2 "Paneer Tikka" (some "Spice Villa")
          none none none).1.calories
        = (get_calories [] "Paneer Tikka" (some "Spice Villa")
            (some [320]) none none).1.calories ∧
      (get_calories (get_calories [] "Paneer Tikka" (some "Spice Villa")
          (some [320]) none none).2 "Paneer Tikka" (some "Spice Villa")
          none none none).1.is_estimated
        = (get_calories [] "Paneer Tikka" (some "Spice Villa")
            (some [320]) none none).1.is_estimated ∧
      (get_calories (get_calories [] "Paneer Tikka" (some "Spice Villa")
          (some [320]) none none).2 "Paneer Tikka" (some "Spice Villa")
          none none none).2
        = (get_calories [] "Paneer Tikka" (some "Spice Villa")
            (some [320]) none none).2) :=
  have hw : (get_calories [] "Paneer Tikka" (some "Spice Villa")
      (some [320]) none none).2 ≠ [] := by
    unfold get_calories
    norm_num [check_cache, lookup_api_ninjas, usable, save_to_cache]
  ⟨hw, c6_cache_roundtrip [] "Paneer Tikka" (some "Spice Villa")
    (some [320]) none none none none none hw⟩

/-- C7: the resolver is total; when the cache misses and every source finds
nothing usable it returns exactly `calories = none`, `is_estimated = true`,
`source_url = none` and leaves the cache unchanged. -/
theorem c7_terminal_fallback (db : List CacheRow) (dish : String)
    (rest : Option String) (api : Option (List ℚ)) (web : Option (ℚ × Option String))
    (llm : Option ℚ) (h0 : check_cache db dish rest = none)
    (h1 : usable (lookup_api_ninjas api) = none)
    (h2 : usable (search_web web) = none)
    (h3 : estimate_with_llm llm = none) :
    get_calories db dish rest api web llm = (⟨none, true, none⟩, db) :=
  get_calories_terminal db dish rest api web llm h0 h1 h2 h3

theorem c7_terminal_fallback_witness :
    (check_cache [] "Xyzdish123" none = none ∧
      usable (lookup_api_ninjas none) = none ∧
      usable (search_web none) = none ∧
      estimate_with_llm none = none) ∧
    get_calories [] "Xyzdish123" none none none none = (⟨none, true, none⟩, []) :=
  ⟨⟨rfl, rfl, rfl, rfl⟩,
    c7_terminal_fallback [] "Xyzdish123" none none none none rfl rfl rfl rfl⟩

/-! ## Matcher soundness and the calorie patterns (C9) -/

theorem mem_mseq {a b : M} {s c1 r1 c2 r2 : List Char}
    (ha : (c1, r1) ∈ a s) (hb : (c2, r2) ∈ b r1) : (c1 ++ c2, r2) ∈ mseq a b s := by
  unfold mseq
  exact List.mem_flatMap.mpr ⟨(c1, r1), ha, List.mem_map.mpr ⟨(c2, r2), hb, rfl⟩⟩

theorem mem_mopt_eps (a : M) (s : List Char) : (([] : List Char), s) ∈ mopt a s := by
  unfold mopt
  exact List.mem_append.mpr (Or.inr (List.mem_singleton.mpr rfl))

theorem mseq_ok {a b : M} (ha : MOk a) (hb : MOk b) : MOk (mseq a b) := by
  intro s p hp
  unfold mseq at hp
  obtain ⟨q, hq, hp'⟩ := List.mem_flatMap.mp hp
  obtain ⟨q2, hq2, hpe⟩ := List.mem_map.mp hp'
  have h1 := ha s q hq
  have h2 := hb q.2 q2 hq2
  rw [← hpe]
  show q.1 ++ q2.1 ++ q2.2 = s
  rw [List.append_assoc, h2, h1]

theorem malt_ok {ms : List M} (h : ∀ m ∈ ms, MOk m) : MOk (malt ms) := by
  intro s p hp
  unfold malt at hp
  obtain ⟨m, hm, hpm⟩ := List.mem_flatMap.mp hp
  exact h m hm s p hpm

theorem mopt_ok {a : M} (ha : MOk a) : MOk (mopt a) := by
  intro s p hp
  unfold mopt at hp
  rcases List.mem_append.mp hp with h | h
  · exact ha s p h
  · have := List.mem_singleton.mp h
    subst this
    rfl

theorem repClass_ok (p : Char → Bool) (lo hi : Nat) : MOk (repClass p lo hi) := by
  intro s pr hpr
  simp only [repClass] at hpr
  obtain ⟨k, _, hsome⟩ := List.mem_filterMap.mp hpr
  by_cases hle : lo ≤ min hi (runLen p s) - k
  · rw [if_pos hle] at hsome
    injection hsome with h'
    rw [← h']
    exact List.take_append_drop _ s
  · rw [if_neg hle] at hsome
    cases hsome

theorem plusClass_ok (p : Char → Bool) : MOk (plusClass p) := by
  intro s pr hpr
  exact repClass_ok p 1 s.length s pr hpr

theorem starClass_ok (p : Char → Bool) : MOk (starClass p) := by
  intro s pr hpr
  exact repClass_ok p 0 s.length s pr hpr

theorem mlit_ok (w : List Char) : MOk (mlit w) := by
  intro s pr hpr
  unfold mlit at hpr
  by_cases hpre : w.isPrefixOf s
  · rw [if_pos hpre] at hpr
    have := List.mem_singleton.mp hpr
    subst this
    exact List.take_append_drop _ s
  · rw [if_neg hpre] at hpr
    cases hpr

theorem numC_ok : MOk numC :=
  mseq_ok (plusClass_ok _) (mopt_ok (mseq_ok (mlit_ok _) (plusClass_ok _)))

theorem rangeSep_ok : MOk rangeSep :=
  mseq_ok (mseq_ok (starClass_ok _) (mlit_ok _)) (starClass_ok _)

theorem findSome?_ne_none_of_mem {α β : Type} {l : List α} {f : α → Option β} {a : α}
    (ha : a ∈ l) (hf : f a ≠ none) : l.findSome? f ≠ none := by
  induction l with
  | nil => cases ha
  | cons x t ih =>
    rcases hfx : f x with _ | b
    · simp only [List.findSome?_cons, hfx]
      rcases List.mem_cons.mp ha with rfl | hat
      · exact absurd hfx hf
      · exact ih hat
    · simp [List.findSome?_cons, hfx]

theorem searchO_exists {α : Type} {f : List Char → Option α} {s : List Char} {v : α}
    (h : searchO f s = some v) : ∃ t, t <:+ s ∧ f t = some v := by
  induction s with
  | nil => exact ⟨[], List.suffix_refl [], h⟩
  | cons c t ih =>
    rw [searchO] at h
    rcases hfc : f (c :: t) with _ | w
    · simp only [hfc] at h
      obtain ⟨u, hu, hf⟩ := ih h
      exact ⟨u, hu.trans (List.suffix_cons c t), hf⟩
    · simp only [hfc] at h
      exact ⟨c :: t, List.suffix_refl _, by rw [hfc]; exact h⟩

theorem searchO_ne_none_of_suffix {α : Type} {f : List Char → Option α}
    {t s : List Char} (hsuf : t <:+ s) (hf : f t ≠ none) : searchO f s ≠ none := by
  induction s with
  | nil =>
    have ht : t = [] := List.suffix_nil.mp hsuf
    subst ht
    exact hf
  | cons c s' ih =>
    rw [searchO]
    rcases hfc : f (c :: s') with _ | w
    · rcases List.suffix_cons_iff.mp hsuf with rfl | hsuf'
      · exact absurd hfc hf
      · exact ih hsuf'
    · simp

theorem calP3_implies_calP1 {s : List Char} {g : List Char × List Char}
    (h : calP3At s = some g) : ∃ t, t <:+ s ∧ calP1At t ≠ none := by
  unfold calP3At at h
  obtain ⟨pr1, hpr1, h⟩ := List.exists_of_findSome?_eq_some h
  obtain ⟨ps, hps, h⟩ := List.exists_of_findSome?_eq_some h
  obtain ⟨pr2, hpr2, h⟩ := List.exists_of_findSome?_eq_some h
  have htail : unitTailOk pr2.2 = true := by
    by_cases hb : unitTailOk pr2.2
    · exact hb
    · rw [if_neg hb] at h
      cases h
  refine ⟨ps.2, ?_, ?_⟩
  · have h1 : pr1.1 ++ pr1.2 = s := numC_ok s pr1 hpr1
    have h2 : ps.1 ++ ps.2 = pr1.2 := rangeSep_ok pr1.2 ps hps
    exact List.IsSuffix.trans ⟨ps.1, h2⟩ ⟨pr1.1, h1⟩
  · unfold calP1At
    apply findSome?_ne_none_of_mem (a := (pr2.1, pr2.2))
    · have hmem := mem_mseq hpr2
        (mem_mopt_eps (mseq (mlit ['.']) (plusClass Char.isDigit)) pr2.2)
      rw [List.append_nil] at hmem
      exact hmem
    · simp [htail]

/-- C9 counterexample: on the range text `"200 - 300 calories"` the first
(single-number) pattern already matches at `"300 calories"`, so the extraction
returns 300, not the midpoint 250. -/
theorem c9_counterexample :
    extract_calorie_number "200 - 300 calories" = some 300 ∧
    extract_calorie_number "200 - 300 calories" ≠ some (((200 : ℚ) + 300) / 2) := by
  have hs : searchO calP1At ("200 - 300 calories").data = some ("300").data := by decide
  have h1 : natOfDigits ((("300").data.filter (· != ',')).takeWhile (· != '.')) = 300 := by
    decide
  have h2 : (((("300").data.filter (· != ',')).dropWhile (· != '.')).drop 1) = [] := by
    decide
  have hp : parseNum ("300").data = 300 := by
    simp only [parseNum]
    rw [h1, h2]
    norm_num [natOfDigits]
  have hmain : extract_calorie_number "200 - 300 calories" = some 300 := by
    unfold extract_calorie_number
    simp only [hs]
    rw [hp]
  refine ⟨hmain, ?_⟩
  rw [hmain]
  have hmid : ((200 : ℚ) + 300) / 2 = 250 := by norm_num
  rw [hmid]
  intro hcontra
  injection hcontra with h'
  norm_num at h'

/-- C9 amended: whenever the range pattern matches anywhere in the text the
first single-number pattern matches as well (the second range endpoint
followed by the unit is such a match), so the extraction always answers from
the first pattern and the range-midpoint branch is unreachable. -/
theorem c9_range_branch_dead (t : List Char) (h : searchO calP3At t ≠ none) :
    searchO calP1At t ≠ none ∧
    extract_calorie_number ⟨t⟩ = (searchO calP1At t).map parseNum := by
  have h1 : searchO calP1At t ≠ none := by
    rcases hv : searchO calP3At t with _ | v
    · exact absurd hv h
    · obtain ⟨u, hu, hf⟩ := searchO_exists hv
      obtain ⟨w, hw, hne⟩ := calP3_implies_calP1 hf
      exact searchO_ne_none_of_suffix (hw.trans hu) hne
  refine ⟨h1, ?_⟩
  rcases hp : searchO calP1At t with _ | g
  · exact absurd hp h1
  · unfold extract_calorie_number
    have hd : (⟨t⟩ : String).data = t := rfl
    rw [hd, hp]
    rfl

theorem c9_range_branch_dead_witness :
    (searchO calP3At ("200 - 300 calories").data ≠ none) ∧
    (searchO calP1At ("200 - 300 calories").data ≠ none ∧
      extract_calorie_number ⟨("200 - 300 calories").data⟩
        = (searchO calP1At ("200 - 300 calories").data).map parseNum) :=
  ⟨by decide, c9_range_branch_dead ("200 - 300 calories").data (by decide)⟩

/-! ## Order timestamp fallback (C8) -/

/-- C8 counterexample: a body text matched by no date pattern yields a
candidate whose `orderTimestamp` is the current time (13:45 here), not an
exact-midnight sentinel. -/
theorem c8_counterexample :
    searchO (groupAt dateM1) ("hello world").data = none ∧
    searchO (groupAt dateM2) ("hello world").data = none ∧
    searchO (groupAt dateM3) ("hello world").data = none ∧
    parse_html (some "Spice Villa") [⟨"Paneer Tikka", 2⟩] ("hello world").data
        ⟨2026, 1, 15, 13, 45⟩
      = some ⟨"Spice Villa", ⟨2026, 1, 15, 13, 45⟩, [⟨"Paneer Tikka", 2⟩]⟩ ∧
    ¬ isMidnight ⟨2026, 1, 15, 13, 45⟩ :=
  ⟨by decide, by decide, by decide, by decide, by intro h; exact absurd h.1 (by decide)⟩

/-- C8 amended: when no date-format pattern matches the body text, the
candidate's `orderTimestamp` is the substituted current time (`datetime.now`),
not the midnight sentinel; midnight arises only from a matched date with no
parsed time. -/
theorem c8_no_date_gives_now (t : List Char) (now : DateTime) (rR : Option String)
    (dR : List DishItem) (o : ParsedOrder)
    (h1 : searchO (groupAt dateM1) t = none)
    (h2 : searchO (groupAt dateM2) t = none)
    (h3 : searchO (groupAt dateM3) t = none)
    (ho : parse_html rR dR t now = some o) :
    o.order_date = now := by
  have hd : dateLoop t = none := by
    simp [dateLoop, tryDatePattern, h1, h2, h3]
  have he : extract_order_date t = none := by
    simp [extract_order_date, hd]
  unfold parse_html at ho
  rw [he] at ho
  by_cases hc : (restTruthy rR && !dR.isEmpty) = true
  · rw [if_pos hc] at ho
    injection ho with ho'
    rw [← ho']
    rfl
  · rw [if_neg hc] at ho
    cases ho

theorem c8_no_date_gives_now_witness :
    (searchO (groupAt dateM1) ("hello world").data = none ∧
      searchO (groupAt dateM2) ("hello world").data = none ∧
      searchO (groupAt dateM3) ("hello world").data = none ∧
      parse_html (some "Spice Villa") [⟨"Paneer Tikka", 2⟩] ("hello world").data
          ⟨2026, 1, 15, 13, 45⟩
        = some ⟨"Spice Villa", ⟨2026, 1, 15, 13, 45⟩, [⟨"Paneer Tikka", 2⟩]⟩) ∧
    (⟨"Spice Villa", ⟨2026, 1, 15, 13, 45⟩,
        [⟨"Paneer Tikka", 2⟩]⟩ : ParsedOrder).order_date
      = ⟨2026, 1, 15, 13, 45⟩ :=
  ⟨⟨by decide, by decide, by decide, by decide⟩,
    c8_no_date_gives_now ("hello world").data ⟨2026, 1, 15, 13, 45⟩
      (some "Spice Villa") [⟨"Paneer Tikka", 2⟩]
      ⟨"Spice Villa", ⟨2026, 1, 15, 13, 45⟩, [⟨"Paneer Tikka", 2⟩]⟩
      (by decide) (by decide) (by decide) (by decide)⟩

end DFS
